import Mathlib

/-!
Verification of the Delifast-Shopify shipment reconciliation engine.

This file gives a shallow embedding, in Lean 4, of the core pure logic of
the repository: the city and status mapping tables, temporary shipment id
generation, the order mapper payment branch, partner response field
extraction, the send / temp-id-resolution / status-sync job steps, and the
partner API request wrappers.  JavaScript strings are modelled as Lean
strings, JavaScript numbers that hold integers as Int or Nat, money amounts
as rationals, and nullable values as Option.  Fallible operations are
modelled with Except; external effects (HTTP responses, login results,
database rows) are passed in as explicit inputs.  Theorems at the end of
the file settle the specification claims against these definitions.
-/

namespace Delifast

/-! ### JavaScript string primitives

Models of the JavaScript string operations used by the sources, defined on
the character list of the Lean string.  Character case conversion in Lean
core touches only ASCII letters, which agrees with JavaScript on every
string appearing in the mapping tables (ASCII and Arabic, the latter has
no case in either system).
-/

/-- Model of the JavaScript toLowerCase call. -/
def jsToLower (s : String) : String := ⟨s.data.map Char.toLower⟩

/-- Model of the JavaScript toUpperCase call. -/
def jsToUpper (s : String) : String := ⟨s.data.map Char.toUpper⟩

/-- Model of the JavaScript trim call: whitespace removed from both ends. -/
def jsTrim (s : String) : String :=
  ⟨((s.data.dropWhile Char.isWhitespace).reverse.dropWhile Char.isWhitespace).reverse⟩

/-- Model of the JavaScript call s.includes t (t occurs inside s). -/
def jsIncludes (s t : String) : Bool := decide (t.data <:+: s.data)

/-- Model of the JavaScript call s.startsWith p. -/
def jsStartsWith (s p : String) : Bool := p.data.isPrefixOf s.data

/-- Model of the JavaScript parseInt applied to a string: skip leading
whitespace, read an optional sign and then leading decimal digits; NaN
(here: none) when no digit is found. -/
def parseIntJS (s : String) : Option Int :=
  let cs := s.data.dropWhile Char.isWhitespace
  let (neg, ds) :=
    match cs with
    | '-' :: rest => (true, rest)
    | '+' :: rest => (false, rest)
    | other => (false, other)
  let digits := ds.takeWhile Char.isDigit
  if digits.isEmpty then none
  else
    let n : Nat := digits.foldl (fun a c => a * 10 + (c.toNat - 48)) 0
    some (if neg then -(n : Int) else (n : Int))

/-- Decimal string of a natural number, used to model the JavaScript
template literal conversion of an integer quantity (a unix-millisecond
timestamp) to its decimal digits. -/
def natToDecimal (n : Nat) : String :=
  if n = 0 then "0"
  else ⟨(Nat.digits 10 n).reverse.map (fun d => Char.ofNat (48 + d))⟩

/-! ### City mapping (src/src/utils/cityMapping.js) -/

/-- Table of Shopify ISO 3166-2:AE province codes to Delifast city ids,
from emirateCodeMap in cityMapping.js. -/
def emirateCodeMap : List (String × Int) :=
  [("AE-AZ", 5), ("AE-AJ", 6), ("AE-AL", 7), ("AE-DU", 8), ("AE-FU", 9),
   ("AE-RK", 10), ("AE-SH", 11), ("AE-UQ", 12), ("AE-WR", 14)]

/-- Table of emirate names (English and Arabic) to Delifast city ids,
from emirateNameMap in cityMapping.js, in source insertion order. -/
def emirateNameMap : List (String × Int) :=
  [("Abu Dhabi", 5), ("أبوظبي", 5), ("ابوظبي", 5), ("Abudhabi", 5),
   ("Ajman", 6), ("عجمان", 6),
   ("Al Ain", 7), ("العين", 7), ("Alain", 7),
   ("Dubai", 8), ("دبي", 8),
   ("Fujairah", 9), ("الفجيرة", 9), ("Fujaira", 9),
   ("Ras Al Khaimah", 10), ("رأس الخيمة", 10), ("راس الخيمة", 10),
   ("RAK", 10), ("Ras al Khaimah", 10),
   ("Sharjah", 11), ("الشارقة", 11),
   ("Umm Al Quwain", 12), ("أم القيوين", 12), ("ام القيوين", 12),
   ("UAQ", 12), ("Umm al Quwain", 12),
   ("Western Region", 14), ("المنطقة الغربية", 14)]

/-- Exact key lookup in a table, modelling JavaScript object indexing. -/
def lookupTable (table : List (String × Int)) (key : String) : Option Int :=
  (table.find? (fun e => e.1 == key)).map (fun e => e.2)

/-- Case-insensitive exact name match, step 3 of mapProvinceToCity. -/
def ciMatch (provinceLower : String) : Option (String × Int) :=
  emirateNameMap.find? (fun e => jsToLower e.1 == provinceLower)

/-- Substring match in either direction, step 4 of mapProvinceToCity. -/
def substrMatch (provinceLower : String) : Option (String × Int) :=
  emirateNameMap.find? (fun e =>
    jsIncludes provinceLower (jsToLower e.1) || jsIncludes (jsToLower e.1) provinceLower)

/-- Embedding of mapProvinceToCity from cityMapping.js: empty input falls
back; then exact code match, exact name match, case-insensitive name
match, substring match, integer parse in the 5..14 city id range, and
finally the supplied default.  The lowercased trimmed form computed once
by the source is written out at each of its two uses. -/
def mapProvinceToCity (province : String) (defaultCityId : Int) : Int :=
  if province = "" then defaultCityId
  else
    match lookupTable emirateCodeMap province with
    | some cityId => cityId
    | none =>
      match lookupTable emirateNameMap province with
      | some cityId => cityId
      | none =>
        match ciMatch (jsTrim (jsToLower province)) with
        | some e => e.2
        | none =>
          match substrMatch (jsTrim (jsToLower province)) with
          | some e => e.2
          | none =>
            match parseIntJS province with
            | some n => if 5 ≤ n && n ≤ 14 then n else defaultCityId
            | none => defaultCityId

/-! ### Temporary shipment ids (src/src/utils/statusMapping.js) -/

/-- Embedding of isTemporaryId: an empty (falsy) id is not temporary,
otherwise the id is temporary exactly when it carries one of the three
reserved prefixes. -/
def isTemporaryId (shipmentId : String) : Bool :=
  if shipmentId = "" then false
  else
    jsStartsWith shipmentId "DELIFAST-" ||
    jsStartsWith shipmentId "PENDING-" ||
    jsStartsWith shipmentId "TEMP-"

/-- Embedding of generateTemporaryId.  The source interpolates the order
number and the unix-millisecond clock reading into a template literal; the
clock reading is passed here as the explicit input timestamp. -/
def generateTemporaryId (orderNumber : String) (timestamp : Nat) : String :=
  "PENDING-" ++ orderNumber ++ "-" ++ natToDecimal timestamp

/-! ### Data model: store settings and the shipment ledger row -/

/-- Tenant settings fields consulted by the embedded operations (a slice
of the storeSettings row). -/
structure StoreSettings where
  mode : String
  autoSendStatus : String
  feesOnSender : Bool
  feesPaid : Bool
  defaultCityId : Int
deriving Repr, DecidableEq

/-- Shipment ledger row, one per (tenant, order).  Timestamps are unix
milliseconds. -/
structure Shipment where
  shopifyOrderId : String
  shopifyOrderNumber : String
  shipmentId : Option String
  isTemporaryId : Bool
  status : String
  statusDetails : Option String
  lookupAttempts : Nat
  nextLookupAt : Option Nat
  lastLookupAt : Option Nat
  sentAt : Option Nat
deriving Repr, DecidableEq

/-! ### Order mapper payment branch (src/src/services/orderMapper.js) -/

/-- Fields of the partner payload decided by the payment branch of
prepareOrderDataForDelifast.  Money amounts are rationals (the source
parses them with parseFloat; every amount the claims touch is exactly
representable). -/
structure PaymentOutput where
  totalPrice : ℚ
  codAmount : ℚ
  paymentMethodId : Nat
  shippingFeesOnSender : Bool
  shippingFeesPaid : Bool
deriving Repr, DecidableEq

/-- Embedding of the isCOD test of prepareOrderDataForDelifast. -/
def isCODGateway (paymentGateway : String) : Bool :=
  jsToLower paymentGateway == "cod" ||
  jsToLower paymentGateway == "cash_on_delivery" ||
  jsIncludes (jsToLower paymentGateway) "cash"

/-- Embedding of the isPaid test of prepareOrderDataForDelifast. -/
def isPaidStatus (financialStatus : String) : Bool :=
  financialStatus == "paid" || financialStatus == "partially_paid"

/-- Embedding of the payment and fee computation of
prepareOrderDataForDelifast: COD first, then electronically paid, then the
unpaid default that mirrors COD.  The orderTotal argument is the parsed
order total. -/
def computePayment (settings : StoreSettings) (financialStatus paymentGateway : String)
    (orderTotal : ℚ) : PaymentOutput :=
  if isCODGateway paymentGateway then
    { totalPrice := orderTotal, codAmount := orderTotal, paymentMethodId := 0,
      shippingFeesOnSender := false, shippingFeesPaid := false }
  else if isPaidStatus financialStatus then
    { totalPrice := 0, codAmount := 0, paymentMethodId := 1,
      shippingFeesOnSender := settings.feesOnSender, shippingFeesPaid := settings.feesPaid }
  else
    { totalPrice := orderTotal, codAmount := orderTotal, paymentMethodId := 0,
      shippingFeesOnSender := false, shippingFeesPaid := false }

/-! ### Partner API responses as a loosely typed tree

The partner API is inconsistent about casing and nesting, so responses are
probed as a generic JSON-like value.  Arrays are not modelled: the
extraction routines the claims describe only probe objects, and no claim
involves an array-shaped response. -/

inductive JsonVal where
  | jnull
  | jbool (b : Bool)
  | jnum (n : Int)
  | jstr (s : String)
  | jobj (fields : List (String × JsonVal))

/-- JavaScript truthiness of a JSON value. -/
def truthy : JsonVal → Bool
  | .jnull => false
  | .jbool b => b
  | .jnum n => n != 0
  | .jstr s => s != ""
  | .jobj _ => true

/-- Model of the JavaScript String(value) conversion for the JSON values
above; an object stringifies to the fixed object tag. -/
def jsString : JsonVal → String
  | .jnull => "null"
  | .jbool b => if b then "true" else "false"
  | .jnum n => if n < 0 then "-" ++ natToDecimal n.natAbs else natToDecimal n.natAbs
  | .jstr s => s
  | .jobj _ => "[object Object]"

/-- Field access on a JSON object, modelling response[field]. -/
def lookupField (fields : List (String × JsonVal)) (key : String) : Option JsonVal :=
  (fields.find? (fun e => e.1 == key)).map (fun e => e.2)

/-! ### Shipment id extraction (src/src/services/delifastClient.js) -/

/-- Embedding of isValidShipmentId: the value is truthy and its string
form has length above 3 and below 30. -/
def isValidShipmentId (v : JsonVal) : Bool :=
  if truthy v = false then false
  else decide (3 < (jsString v).length) && decide ((jsString v).length < 30)

/-- Field names probed at the response root and inside the SH sub-object
by extractShipmentId. -/
def rootIdFields : List String :=
  ["shipmentId", "ShipmentId", "shipmentNo", "ShipmentNo",
   "trackingNumber", "TrackingNumber", "id", "Id"]

/-- Field names probed at each level of the recursive deep search. -/
def deepIdFields : List String :=
  ["ShipmentNo", "shipmentNo", "shipmentId", "ShipmentId",
   "trackingNumber", "TrackingNumber"]

/-- Scan a list of field names over an object, returning the string form
of the first present, truthy and valid field value, as the root and SH
loops of extractShipmentId do. -/
def findFirstValidField (fieldNames : List String)
    (fields : List (String × JsonVal)) : Option String :=
  match fieldNames with
  | [] => none
  | f :: rest =>
    match lookupField fields f with
    | some v =>
      if truthy v && isValidShipmentId v then some (jsString v)
      else findFirstValidField rest fields
    | none => findFirstValidField rest fields

mutual

/-- Embedding of deepSearchShipmentId: give up beyond depth 5, probe the
deep field names on the current object, then recurse into the object
values in order. -/
def deepSearchShipmentId (v : JsonVal) (depth : Nat) : Option String :=
  match v with
  | .jobj fields =>
    if 5 < depth then none
    else
      match findFirstValidField deepIdFields fields with
      | some s => some s
      | none => deepSearchValues fields depth
  | _ => none

/-- Recursion of deepSearchShipmentId over the values of an object, first
hit wins; only object values are entered. -/
def deepSearchValues (fields : List (String × JsonVal)) (depth : Nat) : Option String :=
  match fields with
  | [] => none
  | (_, v) :: rest =>
    match (match v with
           | .jobj _ => deepSearchShipmentId v (depth + 1)
           | _ => none) with
    | some s => some s
    | none => deepSearchValues rest depth

end

/-- Fields of an object response; probing a non-object finds nothing,
matching property access on JavaScript primitives. -/
def objFields : JsonVal → List (String × JsonVal)
  | .jobj fs => fs
  | _ => []

/-- Embedding of extractShipmentId: a falsy response yields nothing; the
root field list is probed first, then the same list inside a nested SH
object, then the recursive deep search starting at depth 0. -/
def extractShipmentId (response : JsonVal) : Option String :=
  if truthy response = false then none
  else
    match findFirstValidField rootIdFields (objFields response) with
    | some s => some s
    | none =>
      match (match lookupField (objFields response) "SH" with
             | some (.jobj shFields) => findFirstValidField rootIdFields shFields
             | _ => none) with
      | some s => some s
      | none => deepSearchShipmentId response 0

/-! ### Status sync sweeps (src/unnamed/part_001 syncStoreStatuses and
delifast/app/services/jobs.server.js syncStoreStatuses)

The prisma selection of each sweep is modelled as a filter over the rows
of the shipment table. -/

/-- Selection predicate of the standalone status sync job: real (non
temporary) id present and status outside the four excluded states. -/
def syncSelectionStandalone (s : Shipment) : Bool :=
  !s.isTemporaryId && s.shipmentId.isSome &&
  !(["completed", "cancelled", "returned", "not_found"].contains s.status)

/-- Rows the standalone sweep reads: the selection, batched to 100. -/
def shipmentsToSyncStandalone (rows : List Shipment) : List Shipment :=
  (rows.filter syncSelectionStandalone).take 100

/-- Per shipment, the standalone loop additionally skips ids that match
the temporary pattern before issuing the partner status call; the
remaining rows each get exactly one partner call. -/
def polledShipmentsStandalone (rows : List Shipment) : List Shipment :=
  (shipmentsToSyncStandalone rows).filter
    (fun s => !(match s.shipmentId with
                | some id => isTemporaryId id
                | none => false))

/-- Selection predicate of the embedded app status sync job. -/
def syncSelectionEmbedded (s : Shipment) : Bool :=
  !s.isTemporaryId &&
  !(["completed", "cancelled", "returned", "error"].contains s.status) &&
  s.shipmentId.isSome

/-- Rows the embedded sweep reads; each row gets one partner status call. -/
def shipmentsToSyncEmbedded (rows : List Shipment) : List Shipment :=
  rows.filter syncSelectionEmbedded

/-! ### Temp-id resolution sweeps (src/src/jobs/updateTempIds.js and
delifast/app/services/jobs.server.js updateStoreTempIds) -/

/-- Job configuration slice used by the sweeps (source defaults: 24
attempts, 60 minutes). -/
structure JobsConfig where
  maxLookupAttempts : Nat
  lookupIntervalMinutes : Nat
deriving Repr, DecidableEq

/-- Selection predicate shared by both temp-id resolution sweeps:
temporary flag set, attempt counter below the maximum, and the next
lookup either unscheduled or due. -/
def tempIdSelection (cfg : JobsConfig) (now : Nat) (s : Shipment) : Bool :=
  s.isTemporaryId && s.lookupAttempts < cfg.maxLookupAttempts &&
  (match s.nextLookupAt with
   | none => true
   | some t => t ≤ now)

/-- Manual intervention notice written by the standalone sweep at the
attempt cap. -/
def manualInterventionNotice : String :=
  "Could not retrieve real shipment ID. Please update manually."

/-- Failed-lookup branch of the standalone per-shipment iteration: the
attempt counter advances, the next lookup is scheduled only while
attempts remain below the maximum, and on reaching the maximum the
schedule is cleared and the manual intervention notice is written. -/
def updateTempIdStepStandaloneFailed (cfg : JobsConfig) (now : Nat)
    (s : Shipment) : Shipment :=
  let nextAttempt := s.lookupAttempts + 1
  let scheduled :=
    { s with lookupAttempts := nextAttempt, lastLookupAt := some now,
             nextLookupAt :=
               if nextAttempt < cfg.maxLookupAttempts then
                 some (now + cfg.lookupIntervalMinutes * 60 * 1000)
               else none }
  if cfg.maxLookupAttempts ≤ nextAttempt then
    { scheduled with statusDetails := some manualInterventionNotice }
  else scheduled

/-- One per-shipment iteration of the standalone updateStoreTempIds
(src/src/jobs/updateTempIds.js), given the lookup outcome for this order
number (none models a null lookup result).  A truthy id different from the
stored one promotes the row; otherwise the failed-lookup branch runs. -/
def updateTempIdStepStandalone (cfg : JobsConfig) (now : Nat) (s : Shipment)
    (lookupResult : Option String) : Shipment :=
  match lookupResult with
  | some realId =>
    if realId != "" && some realId != s.shipmentId then
      { s with shipmentId := some realId, isTemporaryId := false, status := "new",
               statusDetails := some "Real shipment ID received",
               lookupAttempts := 0, nextLookupAt := none, lastLookupAt := some now }
    else
      updateTempIdStepStandaloneFailed cfg now s
  | none => updateTempIdStepStandaloneFailed cfg now s

/-- Failed-lookup branch of the embedded per-shipment iteration: the
counter advances and the next lookup is re-scheduled unconditionally,
with no cap handling in this variant. -/
def updateTempIdStepEmbeddedFailed (cfg : JobsConfig) (now : Nat)
    (s : Shipment) : Shipment :=
  { s with lookupAttempts := s.lookupAttempts + 1, lastLookupAt := some now,
           nextLookupAt := some (now + cfg.lookupIntervalMinutes * 60 * 1000) }

/-- One per-shipment iteration of the embedded updateStoreTempIds
(jobs.server.js), given the lookup outcome.  A truthy non temporary id
promotes the row (the counter still advances and the schedule is
cleared); otherwise the failed-lookup branch runs. -/
def updateTempIdStepEmbedded (cfg : JobsConfig) (now : Nat) (s : Shipment)
    (lookupResult : Option String) : Shipment :=
  match lookupResult with
  | some realId =>
    if realId != "" && !isTemporaryId realId then
      { s with shipmentId := some realId, isTemporaryId := false,
               lookupAttempts := s.lookupAttempts + 1,
               lastLookupAt := some now, nextLookupAt := none }
    else
      updateTempIdStepEmbeddedFailed cfg now s
  | none => updateTempIdStepEmbeddedFailed cfg now s

/-! ### Send and its trigger paths (src/src/services/orderHandler.js,
src/src/routes/api.js; the embedded app variant in
delifast/app/services/encryption.server.js has the same logic) -/

/-- Truthiness of an optional string, as JavaScript sees a nullable
string field. -/
def truthyStr (o : Option String) : Bool :=
  match o with
  | some s => s != ""
  | none => false

/-- Embedding of shouldAutoSend from orderMapper.js: requires a settings
row in auto mode whose configured trigger equals the event. -/
def shouldAutoSend (settings : Option StoreSettings) (trigger : String) : Bool :=
  match settings with
  | none => false
  | some st =>
    if st.mode != "auto" then false
    else
      match ([("created", "created"), ("paid", "paid"),
              ("fulfilled", "fulfilled")].find? (fun e => e.1 == trigger)).map
              (fun e => e.2) with
      | some expected => st.autoSendStatus == expected
      | none => false

/-- Whether the ledger row for this (tenant, order) already carries a
truthy shipment id, the guard the idempotent paths test. -/
def hasShipmentId (existing : Option Shipment) : Bool :=
  match existing with
  | some sh => truthyStr sh.shipmentId
  | none => false

/-- Whether the order-created webhook path invokes Send.  The existing
ledger row is passed to expose that handleOrderCreated never consults
it: only the auto-send rule is checked. -/
def orderCreatedInvokesSend (settings : Option StoreSettings)
    (_existing : Option Shipment) : Bool :=
  shouldAutoSend settings "created"

/-- Whether the order-paid webhook path invokes Send: handleOrderPaid
returns early when the existing row carries a shipment id, then checks
the auto-send rule. -/
def orderPaidInvokesSend (settings : Option StoreSettings)
    (existing : Option Shipment) : Bool :=
  if hasShipmentId existing then false
  else shouldAutoSend settings "paid"

/-- Whether the manual single-order send endpoint invokes Send: the
route rejects when the existing row carries a shipment id. -/
def manualSendInvokesSend (existing : Option Shipment) : Bool :=
  !hasShipmentId existing

/-- Result of the partner create-shipment call as the send path sees it
after client-side extraction. -/
structure CreateResult where
  shipmentId : Option String
  needsLookup : Bool
deriving Repr, DecidableEq

/-- Outcome of one Send: the resulting ledger row for this
(tenant, order), the value returned or exception re-thrown, and whether a
partner create-shipment call was made. -/
structure SendOutcome where
  ledger : Option Shipment
  result : Except String (String × Bool)
  partnerCalled : Bool

/-- Ledger row written by the error path of Send: an existing row is
overwritten with status error and the exception message, a missing row is
created in that state. -/
def upsertErrorRow (orderId orderNumber : String) (existing : Option Shipment)
    (message : String) : Shipment :=
  match existing with
  | some row => { row with status := "error", statusDetails := some message }
  | none =>
    { shopifyOrderId := orderId, shopifyOrderNumber := orderNumber,
      shipmentId := none, isTemporaryId := false, status := "error",
      statusDetails := some message, lookupAttempts := 0,
      nextLookupAt := none, lastLookupAt := none, sentAt := none }

/-- Embedding of sendOrderToDelifast.  Payload preparation and the partner
create call are passed as explicit outcomes; now is the clock reading used
for the temporary id and the schedule.  Any failure of preparation or
creation upserts an error row and re-throws; success upserts the row as
new, synthesizing a temporary id when the partner withheld one, and
schedules the first lookup 15 minutes out. -/
def sendOrderToDelifast (now : Nat) (orderId orderNumber : String)
    (existing : Option Shipment)
    (prepareResult : Except String Unit)
    (createResult : Except String CreateResult) : SendOutcome :=
  match prepareResult with
  | .error e =>
    { ledger := some (upsertErrorRow orderId orderNumber existing e),
      result := .error e, partnerCalled := false }
  | .ok _ =>
    match createResult with
    | .error e =>
      { ledger := some (upsertErrorRow orderId orderNumber existing e),
        result := .error e, partnerCalled := true }
    | .ok r =>
      let isTemporary := !truthyStr r.shipmentId || r.needsLookup
      let shipmentId :=
        if isTemporary then generateTemporaryId orderNumber now
        else r.shipmentId.getD ""
      let details := if isTemporary then "Awaiting real shipment ID" else "Shipment created"
      let nextLookup := if isTemporary then some (now + 15 * 60 * 1000) else none
      let row :=
        match existing with
        | some old =>
          { old with shipmentId := some shipmentId, isTemporaryId := isTemporary,
                     status := "new", statusDetails := some details,
                     sentAt := some now, nextLookupAt := nextLookup }
        | none =>
          { shopifyOrderId := orderId, shopifyOrderNumber := orderNumber,
            shipmentId := some shipmentId, isTemporaryId := isTemporary,
            status := "new", statusDetails := some details,
            lookupAttempts := 0, nextLookupAt := nextLookup,
            lastLookupAt := none, sentAt := none }
      { ledger := some row, result := .ok (shipmentId, isTemporary),
        partnerCalled := true }

/-! ### Partner request wrappers (src/src/services/delifastClient.js
makeRequest over axios, and delifast/app/services/tokenManager.server.js
makeRequest over fetch) -/

/-- Outcome of one axios call: axios resolves with the body on a 2xx and
rejects with the status and body otherwise, or rejects with a transport
error. -/
inductive HttpOutcome where
  | ok (data : JsonVal)
  | httpError (status : Nat) (data : JsonVal)
  | netError (msg : String)

/-- Outcome of one fetch call: fetch resolves with status and body for
every HTTP response and rejects only on transport errors. -/
inductive FetchOutcome where
  | resp (status : Nat) (data : JsonVal)
  | netError (msg : String)

/-- Errors a request wrapper can propagate to its caller. -/
inductive ReqError where
  | http (status : Nat) (data : JsonVal)
  | net (msg : String)
  | loginFailed (msg : String)

/-- Embedding of the axios makeRequest: the first response is returned on
success; a 401 clears the token, logs in again and replays the request
once, whose outcome is returned or propagated as is (a second 401 rejects
again and is rethrown); any other failure propagates. -/
def makeRequestAxios (resp1 : HttpOutcome) (loginResult : Except String String)
    (resp2 : HttpOutcome) : Except ReqError JsonVal :=
  match resp1 with
  | .ok d => .ok d
  | .httpError status d =>
    if status = 401 then
      match loginResult with
      | .error e => .error (.loginFailed e)
      | .ok _ =>
        match resp2 with
        | .ok d2 => .ok d2
        | .httpError s2 d2 => .error (.http s2 d2)
        | .netError m => .error (.net m)
    else .error (.http status d)
  | .netError m => .error (.net m)

/-- Embedding of the fetch makeRequest: a response with ok status returns
its body; a 401 clears the token, logs in again and replays the request
once, returning the parsed body of the retry with no status check; any
other status throws an API error. -/
def makeRequestFetch (resp1 : FetchOutcome) (loginResult : Except String String)
    (resp2 : FetchOutcome) : Except ReqError JsonVal :=
  match resp1 with
  | .netError m => .error (.net m)
  | .resp status d =>
    if 200 ≤ status && status < 300 then .ok d
    else if status = 401 then
      match loginResult with
      | .error e => .error (.loginFailed e)
      | .ok _ =>
        match resp2 with
        | .netError m => .error (.net m)
        | .resp _ d2 => .ok d2
    else .error (.http status d)

/-! ### Lookup by order number (src/src/services/delifastClient.js;
the tokenManager.server.js variant is identical) -/

/-- Truthiness filter applied by lookupByOrderNumber to an extracted id
before returning it. -/
def truthyId (o : Option String) : Option String :=
  match o with
  | some id => if id = "" then none else some id
  | none => none

/-- Embedding of lookupByOrderNumber: the primary endpoint response is
probed for a shipment id, the alternate endpoint is consulted when none
is found, and every exception on either call is caught and turned into
none. -/
def lookupByOrderNumber (primaryResult altResult : Except ReqError JsonVal) :
    Option String :=
  match primaryResult with
  | .error _ => none
  | .ok r =>
    match truthyId (extractShipmentId r) with
    | some id => some id
    | none =>
      match altResult with
      | .error _ => none
      | .ok ar => truthyId (extractShipmentId ar)

/-! ## Helper lemmas -/

/-- Decimal digit characters are distinct for distinct digits. -/
lemma digitChar_inj_lt10 : ∀ d1 < 10, ∀ d2 < 10,
    Char.ofNat (48 + d1) = Char.ofNat (48 + d2) → d1 = d2 := by decide

/-- Mapping digit lists (all entries below 10) to characters is injective. -/
lemma mapDigitChar_inj : ∀ (l1 l2 : List Nat), (∀ d ∈ l1, d < 10) → (∀ d ∈ l2, d < 10) →
    l1.map (fun d => Char.ofNat (48 + d)) = l2.map (fun d => Char.ofNat (48 + d)) →
    l1 = l2 := by
  intro l1
  induction l1 with
  | nil =>
    intro l2 _ _ h
    cases l2 with
    | nil => rfl
    | cons d2 t2 => simp at h
  | cons d t ih =>
    intro l2 h1 h2 h
    cases l2 with
    | nil => simp at h
    | cons d2 t2 =>
      simp only [List.map_cons, List.cons.injEq] at h
      have hd := digitChar_inj_lt10 d (h1 d (by simp)) d2 (h2 d2 (by simp)) h.1
      have ht := ih t2 (fun x hx => h1 x (by simp [hx])) (fun x hx => h2 x (by simp [hx])) h.2
      rw [hd, ht]

/-- Character data of the decimal string determines the number. -/
lemma natToDecimal_data_inj {a b : Nat}
    (h : (natToDecimal a).data = (natToDecimal b).data) : a = b := by
  have hbound : ∀ m : Nat, ∀ d ∈ (Nat.digits 10 m).reverse, d < 10 := by
    intro m d hd
    exact Nat.digits_lt_base (by norm_num) (List.mem_reverse.mp hd)
  have hofd : Nat.ofDigits 10 ([0] : List Nat) = 0 := by simp [Nat.ofDigits]
  unfold natToDecimal at h
  by_cases ha : a = 0 <;> by_cases hb : b = 0
  · rw [ha, hb]
  · rw [if_pos ha, if_neg hb] at h
    have h2 : (['0'] : List Char) = (Nat.digits 10 b).reverse.map
        (fun d => Char.ofNat (48 + d)) := h
    have h3 : ([0] : List Nat) = (Nat.digits 10 b).reverse :=
      mapDigitChar_inj [0] (Nat.digits 10 b).reverse (by simp) (hbound b) h2
    have h4 : Nat.digits 10 b = [0] := by
      rw [← List.reverse_inj]; simpa using h3.symm
    have h5 := Nat.ofDigits_digits 10 b
    rw [h4, hofd] at h5
    exact absurd h5.symm hb
  · rw [if_neg ha, if_pos hb] at h
    have h2 : (Nat.digits 10 a).reverse.map (fun d => Char.ofNat (48 + d))
        = (['0'] : List Char) := h
    have h3 : (Nat.digits 10 a).reverse = ([0] : List Nat) :=
      mapDigitChar_inj (Nat.digits 10 a).reverse [0] (hbound a) (by simp) h2
    have h4 : Nat.digits 10 a = [0] := by
      rw [← List.reverse_inj]; simpa using h3
    have h5 := Nat.ofDigits_digits 10 a
    rw [h4, hofd] at h5
    exact absurd h5.symm ha
  · rw [if_neg ha, if_neg hb] at h
    have h3 : (Nat.digits 10 a).reverse = (Nat.digits 10 b).reverse :=
      mapDigitChar_inj _ _ (hbound a) (hbound b) h
    have h4 : Nat.digits 10 a = Nat.digits 10 b := List.reverse_inj.mp h3
    have h5 := Nat.ofDigits_digits 10 a
    rw [h4, Nat.ofDigits_digits] at h5
    exact h5.symm

/-- Character data of a generated temporary id, as an appended list. -/
lemma generateTemporaryId_data (x : String) (t : Nat) :
    (generateTemporaryId x t).data
      = "PENDING-".data ++ (x.data ++ ("-".data ++ (natToDecimal t).data)) := by
  simp [generateTemporaryId, String.data_append]

/-! ## Claims -/

/-- Claim C8: for every order number x, isTemporaryId accepts the id
generated for x (the generated id always carries one of the three
reserved prefixes), and two generateTemporaryId calls for the same order
number that read distinct unix-millisecond clock values yield distinct
ids (uniqueness per call comes from the timestamp component). -/
theorem generateTemporaryId_spec :
    (∀ (x : String) (t : Nat), isTemporaryId (generateTemporaryId x t) = true) ∧
    (∀ (x : String) (t1 t2 : Nat), t1 ≠ t2 →
      generateTemporaryId x t1 ≠ generateTemporaryId x t2) := by
  constructor
  · intro x t
    have hne : generateTemporaryId x t ≠ "" := by
      intro hcontra
      have hdata := congrArg String.data hcontra
      rw [generateTemporaryId_data] at hdata
      simp at hdata
    have hpre : jsStartsWith (generateTemporaryId x t) "PENDING-" = true := by
      unfold jsStartsWith
      rw [List.isPrefixOf_iff_prefix, generateTemporaryId_data]
      exact List.prefix_append _ _
    unfold isTemporaryId
    rw [if_neg hne, hpre]
    simp
  · intro x t1 t2 hne heq
    have hdata := congrArg String.data heq
    rw [generateTemporaryId_data, generateTemporaryId_data] at hdata
    have h1 := List.append_cancel_left hdata
    have h2 := List.append_cancel_left h1
    have h3 := List.append_cancel_left h2
    exact hne (natToDecimal_data_inj h3)

/-- Witness for claim C8 at order number 1001 and clock values 1000 and
1001. -/
theorem generateTemporaryId_spec_witness :
    isTemporaryId (generateTemporaryId "1001" 1000) = true ∧
    (1000 : Nat) ≠ 1001 ∧
    generateTemporaryId "1001" 1000 ≠ generateTemporaryId "1001" 1001 :=
  ⟨generateTemporaryId_spec.1 "1001" 1000, by decide,
   generateTemporaryId_spec.2 "1001" 1000 1001 (by decide)⟩

/-- Claim C7: mapProvinceToCity resolves a province by trying, in this
exact order, exact emirate-code match, exact name match, case-insensitive
exact name match, substring match in either direction, integer parse in
the valid city-id range 5..14, and finally the supplied fallback; an
earlier rule is never shadowed by a later one, every table code and every
table name (as written, lowercased or uppercased) yields its documented
fixed id, and unmapped input, the empty string included, yields the
fallback. -/
theorem mapProvinceToCity_spec :
    (∀ (fb : Int) (p : String) (c : Int),
      lookupTable emirateCodeMap p = some c → mapProvinceToCity p fb = c) ∧
    (∀ (fb : Int) (p : String) (c : Int),
      lookupTable emirateCodeMap p = none → lookupTable emirateNameMap p = some c →
      mapProvinceToCity p fb = c) ∧
    (∀ (fb : Int) (p : String) (e : String × Int),
      lookupTable emirateCodeMap p = none → lookupTable emirateNameMap p = none →
      ciMatch (jsTrim (jsToLower p)) = some e → mapProvinceToCity p fb = e.2) ∧
    (∀ (fb : Int) (p : String) (e : String × Int), p ≠ "" →
      lookupTable emirateCodeMap p = none → lookupTable emirateNameMap p = none →
      ciMatch (jsTrim (jsToLower p)) = none → substrMatch (jsTrim (jsToLower p)) = some e →
      mapProvinceToCity p fb = e.2) ∧
    (∀ (fb : Int) (p : String) (n : Int),
      lookupTable emirateCodeMap p = none → lookupTable emirateNameMap p = none →
      ciMatch (jsTrim (jsToLower p)) = none → substrMatch (jsTrim (jsToLower p)) = none →
      parseIntJS p = some n → 5 ≤ n → n ≤ 14 → mapProvinceToCity p fb = n) ∧
    (∀ (fb : Int) (p : String),
      lookupTable emirateCodeMap p = none → lookupTable emirateNameMap p = none →
      ciMatch (jsTrim (jsToLower p)) = none → substrMatch (jsTrim (jsToLower p)) = none →
      (∀ n : Int, parseIntJS p = some n → ¬(5 ≤ n ∧ n ≤ 14)) →
      mapProvinceToCity p fb = fb) ∧
    (∀ fb : Int, mapProvinceToCity "" fb = fb) ∧
    (∀ fb : Int, ∀ e ∈ emirateCodeMap, mapProvinceToCity e.1 fb = e.2) ∧
    (∀ fb : Int, ∀ e ∈ emirateNameMap, mapProvinceToCity e.1 fb = e.2 ∧
      mapProvinceToCity (jsToLower e.1) fb = e.2 ∧
      mapProvinceToCity (jsToUpper e.1) fb = e.2) := by
  refine ⟨?_, ?_, ?_, ?_, ?_, ?_, ?_, ?_, ?_⟩
  · intro fb p c h
    have hp : p ≠ "" := by
      rintro rfl
      rw [show lookupTable emirateCodeMap "" = none from by decide] at h
      exact Option.noConfusion h
    unfold mapProvinceToCity
    rw [if_neg hp, h]
  · intro fb p c h1 h2
    have hp : p ≠ "" := by
      rintro rfl
      rw [show lookupTable emirateNameMap "" = none from by decide] at h2
      exact Option.noConfusion h2
    unfold mapProvinceToCity
    rw [if_neg hp, h1, h2]
  · intro fb p e h1 h2 h3
    have hp : p ≠ "" := by
      rintro rfl
      rw [show ciMatch (jsTrim (jsToLower "")) = none from by decide] at h3
      exact Option.noConfusion h3
    unfold mapProvinceToCity
    rw [if_neg hp, h1, h2, h3]
  · intro fb p e hp h1 h2 h3 h4
    unfold mapProvinceToCity
    rw [if_neg hp, h1, h2, h3, h4]
  · intro fb p n h1 h2 h3 h4 h5 hlo hhi
    have hp : p ≠ "" := by
      rintro rfl
      rw [show parseIntJS "" = none from by decide] at h5
      exact Option.noConfusion h5
    unfold mapProvinceToCity
    rw [if_neg hp, h1, h2, h3, h4, h5]
    simp [hlo, hhi]
  · intro fb p h1 h2 h3 h4 h5
    by_cases hp : p = ""
    · rw [hp]; rfl
    · unfold mapProvinceToCity
      rw [if_neg hp, h1, h2, h3, h4]
      cases hparse : parseIntJS p with
      | none => rfl
      | some n =>
        have hrange := h5 n hparse
        have hcond : (5 ≤ n && n ≤ 14) = false := by
          cases hc : (5 ≤ n && n ≤ 14)
          · rfl
          · exact absurd (by simpa using hc) hrange
        show (if (5 ≤ n && n ≤ 14) = true then n else fb) = fb
        rw [hcond]
        simp
  · intro fb; rfl
  · intro fb e he
    fin_cases he <;> rfl
  · intro fb e he
    fin_cases he <;> exact ⟨rfl, rfl, rfl⟩

/-- Witness for claim C7: the input Dubai Marina misses the first three
rules, hits the substring rule at the Dubai entry, and maps to city 8. -/
theorem mapProvinceToCity_spec_witness :
    ("Dubai Marina" : String) ≠ "" ∧
    lookupTable emirateCodeMap "Dubai Marina" = none ∧
    lookupTable emirateNameMap "Dubai Marina" = none ∧
    ciMatch (jsTrim (jsToLower "Dubai Marina")) = none ∧
    substrMatch (jsTrim (jsToLower "Dubai Marina")) = some ("Dubai", 8) ∧
    mapProvinceToCity "Dubai Marina" 13 = 8 :=
  ⟨by decide, by decide, by decide, by decide, by decide,
   mapProvinceToCity_spec.2.2.2.1 13 "Dubai Marina" ("Dubai", 8)
     (by decide) (by decide) (by decide) (by decide) (by decide)⟩

/-- Claim C4: the payment and fee computation of the order mapper is a
3-way branch evaluated COD first: a cash-on-delivery gateway makes the
full order total collectible with payment method 0 and both fee flags
forced false; otherwise a paid or partially paid financial status zeroes
the price and the collectible amount with payment method 1 and the fee
flags copied verbatim from tenant settings; otherwise the order is
treated identically to COD.  In particular order total 150.00 with
gateway cod yields codAmount 150.00, paymentMethodId 0 and both fee
flags false. -/
theorem computePayment_spec :
    (∀ (st : StoreSettings) (fs gw : String) (total : ℚ),
      isCODGateway gw = true →
      computePayment st fs gw total =
        { totalPrice := total, codAmount := total, paymentMethodId := 0,
          shippingFeesOnSender := false, shippingFeesPaid := false }) ∧
    (∀ (st : StoreSettings) (fs gw : String) (total : ℚ),
      isCODGateway gw = false → isPaidStatus fs = true →
      computePayment st fs gw total =
        { totalPrice := 0, codAmount := 0, paymentMethodId := 1,
          shippingFeesOnSender := st.feesOnSender,
          shippingFeesPaid := st.feesPaid }) ∧
    (∀ (st : StoreSettings) (fs gw : String) (total : ℚ),
      isCODGateway gw = false → isPaidStatus fs = false →
      computePayment st fs gw total =
        { totalPrice := total, codAmount := total, paymentMethodId := 0,
          shippingFeesOnSender := false, shippingFeesPaid := false }) ∧
    (∀ (st : StoreSettings) (fs : String),
      (computePayment st fs "cod" 150).codAmount = 150 ∧
      (computePayment st fs "cod" 150).paymentMethodId = 0 ∧
      (computePayment st fs "cod" 150).shippingFeesOnSender = false ∧
      (computePayment st fs "cod" 150).shippingFeesPaid = false) := by
  refine ⟨?_, ?_, ?_, ?_⟩
  · intro st fs gw total h
    simp [computePayment, h]
  · intro st fs gw total h1 h2
    simp [computePayment, h1, h2]
  · intro st fs gw total h1 h2
    simp [computePayment, h1, h2]
  · intro st fs
    exact ⟨rfl, rfl, rfl, rfl⟩

/-- Witness for claim C4 at a COD gateway, a paid electronic order and an
unpaid order. -/
theorem computePayment_spec_witness :
    isCODGateway "Cash on Delivery (COD)" = true ∧
    computePayment ⟨"auto", "paid", true, false, 13⟩ "pending" "Cash on Delivery (COD)" 150 =
      { totalPrice := 150, codAmount := 150, paymentMethodId := 0,
        shippingFeesOnSender := false, shippingFeesPaid := false } ∧
    isCODGateway "shopify_payments" = false ∧
    isPaidStatus "paid" = true ∧
    computePayment ⟨"auto", "paid", true, false, 13⟩ "paid" "shopify_payments" 150 =
      { totalPrice := 0, codAmount := 0, paymentMethodId := 1,
        shippingFeesOnSender := true, shippingFeesPaid := false } ∧
    isPaidStatus "pending" = false ∧
    computePayment ⟨"auto", "paid", true, false, 13⟩ "pending" "shopify_payments" 150 =
      { totalPrice := 150, codAmount := 150, paymentMethodId := 0,
        shippingFeesOnSender := false, shippingFeesPaid := false } :=
  ⟨by decide,
   computePayment_spec.1 ⟨"auto", "paid", true, false, 13⟩ "pending"
     "Cash on Delivery (COD)" 150 (by decide),
   by decide, by decide,
   computePayment_spec.2.1 ⟨"auto", "paid", true, false, 13⟩ "paid"
     "shopify_payments" 150 (by decide) (by decide),
   by decide,
   computePayment_spec.2.2.1 ⟨"auto", "paid", true, false, 13⟩ "pending"
     "shopify_payments" 150 (by decide) (by decide)⟩

/-- Claim C9: extractShipmentId first checks the fixed case-variant field
list at the response root, then the same fields inside a nested SH
sub-object, then recursively searches remaining nested objects up to
depth 5; a candidate field is returned exactly when its string form has
length in the 4..29 window (shorter and longer values are rejected); and
the response with ShipmentNo ABC12345 nested two objects deep extracts
ABC12345. -/
theorem extractShipmentId_spec :
    extractShipmentId
      (.jobj [("Data", .jobj [("Nested", .jobj [("ShipmentNo", .jstr "ABC12345")])])])
      = some "ABC12345" ∧
    (∀ (fields : List (String × JsonVal)) (s : String),
      findFirstValidField rootIdFields fields = some s →
      extractShipmentId (.jobj fields) = some s) ∧
    (∀ (fields shFields : List (String × JsonVal)) (s : String),
      findFirstValidField rootIdFields fields = none →
      lookupField fields "SH" = some (.jobj shFields) →
      findFirstValidField rootIdFields shFields = some s →
      extractShipmentId (.jobj fields) = some s) ∧
    (∀ fields : List (String × JsonVal),
      findFirstValidField rootIdFields fields = none →
      (match lookupField fields "SH" with
       | some (.jobj shFields) => findFirstValidField rootIdFields shFields
       | _ => none) = none →
      extractShipmentId (.jobj fields) = deepSearchShipmentId (.jobj fields) 0) ∧
    (∀ s : String, isValidShipmentId (.jstr s) = true ↔ 4 ≤ s.length ∧ s.length ≤ 29) ∧
    (∀ (v : JsonVal) (d : Nat), 5 < d → deepSearchShipmentId v d = none) := by
  refine ⟨?_, ?_, ?_, ?_, ?_, ?_⟩
  · rfl
  · intro fields s h
    unfold extractShipmentId
    rw [if_neg (by simp [truthy])]
    simp only [objFields]
    rw [h]
  · intro fields shFields s h1 h2 h3
    unfold extractShipmentId
    rw [if_neg (by simp [truthy])]
    simp only [objFields]
    rw [h1, h2]
    show (match findFirstValidField rootIdFields shFields with
          | some s => some s
          | none => deepSearchShipmentId (JsonVal.jobj fields) 0) = some s
    rw [h3]
  · intro fields h1 h2
    unfold extractShipmentId
    rw [if_neg (by simp [truthy])]
    simp only [objFields]
    rw [h1]
    show (match (match lookupField fields "SH" with
                 | some (.jobj shFields) => findFirstValidField rootIdFields shFields
                 | _ => none) with
          | some s => some s
          | none => deepSearchShipmentId (JsonVal.jobj fields) 0)
        = deepSearchShipmentId (JsonVal.jobj fields) 0
    rw [h2]
  · intro s
    by_cases hs : s = ""
    · rw [hs]; constructor
      · intro hcontra; exact absurd hcontra (by decide)
      · intro hcontra; simp at hcontra
    · have ht : truthy (.jstr s) = true := by simp [truthy, hs]
      unfold isValidShipmentId
      rw [ht]
      show (decide (3 < (jsString (.jstr s)).length)
            && decide ((jsString (.jstr s)).length < 30)) = true
          ↔ 4 ≤ s.length ∧ s.length ≤ 29
      show (decide (3 < s.length) && decide (s.length < 30)) = true
          ↔ 4 ≤ s.length ∧ s.length ≤ 29
      simp only [Bool.and_eq_true, decide_eq_true_eq]
      omega
  · intro v d h
    cases v with
    | jobj fields =>
      unfold deepSearchShipmentId
      rw [if_pos h]
    | jnull => rfl
    | jbool b => rfl
    | jnum n => rfl
    | jstr s => rfl

/-- Witness for claim C9 at a root-level ShipmentNo field. -/
theorem extractShipmentId_spec_witness :
    findFirstValidField rootIdFields [("success", .jbool true), ("ShipmentNo", .jstr "SH991122")]
      = some "SH991122" ∧
    extractShipmentId (.jobj [("success", .jbool true), ("ShipmentNo", .jstr "SH991122")])
      = some "SH991122" :=
  ⟨by decide,
   extractShipmentId_spec.2.1 [("success", .jbool true), ("ShipmentNo", .jstr "SH991122")]
     "SH991122" (by decide)⟩

/-- Claim C3: a shipment whose stored status is completed, cancelled or
returned is selected by neither status sync sweep, so no partner
get-status call is ever issued for it: the standalone sweep polls only
rows surviving its selection and temp-pattern skip, and the embedded
sweep polls exactly its selection. -/
theorem syncSelection_excludes_terminal :
    ∀ (rows : List Shipment) (s : Shipment),
      s.status = "completed" ∨ s.status = "cancelled" ∨ s.status = "returned" →
      s ∉ polledShipmentsStandalone rows ∧ s ∉ shipmentsToSyncEmbedded rows := by
  intro rows s h
  have hterm : (["completed", "cancelled", "returned", "not_found"].contains s.status) = true
      ∧ (["completed", "cancelled", "returned", "error"].contains s.status) = true := by
    rcases h with h | h | h <;> rw [h] <;> exact ⟨by decide, by decide⟩
  constructor
  · intro hmem
    have h1 : s ∈ shipmentsToSyncStandalone rows := (List.mem_filter.mp hmem).1
    have h2 : s ∈ rows.filter syncSelectionStandalone :=
      List.take_subset _ _ h1
    have hsel : syncSelectionStandalone s = true := (List.mem_filter.mp h2).2
    rw [syncSelectionStandalone, hterm.1] at hsel
    simp at hsel
  · intro hmem
    have hsel : syncSelectionEmbedded s = true := (List.mem_filter.mp hmem).2
    rw [syncSelectionEmbedded, hterm.2] at hsel
    simp at hsel

/-- Witness for claim C3: a completed shipment row is selected by neither
sweep even when it is the only row in the table. -/
theorem syncSelection_excludes_terminal_witness :
    (Shipment.mk "900" "1900" (some "SH445566") false "completed" none 0 none none none).status
        = "completed" ∧
    (Shipment.mk "900" "1900" (some "SH445566") false "completed" none 0 none none none)
        ∉ polledShipmentsStandalone
            [Shipment.mk "900" "1900" (some "SH445566") false "completed" none 0 none none none] ∧
    (Shipment.mk "900" "1900" (some "SH445566") false "completed" none 0 none none none)
        ∉ shipmentsToSyncEmbedded
            [Shipment.mk "900" "1900" (some "SH445566") false "completed" none 0 none none none] :=
  ⟨rfl,
   (syncSelection_excludes_terminal
      [Shipment.mk "900" "1900" (some "SH445566") false "completed" none 0 none none none]
      (Shipment.mk "900" "1900" (some "SH445566") false "completed" none 0 none none none)
      (Or.inl rfl)).1,
   (syncSelection_excludes_terminal
      [Shipment.mk "900" "1900" (some "SH445566") false "completed" none 0 none none none]
      (Shipment.mk "900" "1900" (some "SH445566") false "completed" none 0 none none none)
      (Or.inl rfl)).2⟩

/-- Claim C1 counterexample: in the embedded updateStoreTempIds
(jobs.server.js) with the source configuration of 24 maximum attempts, a
failed pass that raises the counter from 23 to the cap of 24 leaves
nextLookupAt scheduled (not null) and leaves statusDetails untouched
rather than writing the manual-intervention notice, refuting the claim
for this cited variant at a concrete selected shipment. -/
theorem updateTempIds_cap_counterexample :
    tempIdSelection ⟨24, 60⟩ 5000
      (Shipment.mk "101" "1001" (some "PENDING-1001-5") true "new"
        (some "Awaiting real shipment ID") 23 none none (some 0)) = true ∧
    (updateTempIdStepEmbedded ⟨24, 60⟩ 5000
      (Shipment.mk "101" "1001" (some "PENDING-1001-5") true "new"
        (some "Awaiting real shipment ID") 23 none none (some 0)) none).lookupAttempts = 24 ∧
    (updateTempIdStepEmbedded ⟨24, 60⟩ 5000
      (Shipment.mk "101" "1001" (some "PENDING-1001-5") true "new"
        (some "Awaiting real shipment ID") 23 none none (some 0)) none).nextLookupAt
      = some 3605000 ∧
    (updateTempIdStepEmbedded ⟨24, 60⟩ 5000
      (Shipment.mk "101" "1001" (some "PENDING-1001-5") true "new"
        (some "Awaiting real shipment ID") 23 none none (some 0)) none).statusDetails
      = some "Awaiting real shipment ID" :=
  ⟨rfl, rfl, rfl, rfl⟩

/-- Claim C1 amended: in both temp-id resolution variants a failed pass
raises the attempt counter by exactly one, and the selection predicate
requires the counter to be below maxLookupAttempts, so a capped shipment
is never selected again; the standalone variant (updateTempIds.js)
additionally clears nextLookupAt and writes the manual-intervention
notice on reaching the cap, while the embedded variant (jobs.server.js)
re-schedules nextLookupAt unconditionally and never touches
statusDetails on a failed pass. -/
theorem updateTempIds_cap_amended :
    (∀ (cfg : JobsConfig) (now : Nat) (s : Shipment),
      (updateTempIdStepStandalone cfg now s none).lookupAttempts = s.lookupAttempts + 1 ∧
      (updateTempIdStepEmbedded cfg now s none).lookupAttempts = s.lookupAttempts + 1) ∧
    (∀ (cfg : JobsConfig) (now : Nat) (s : Shipment),
      cfg.maxLookupAttempts ≤ s.lookupAttempts + 1 →
      (updateTempIdStepStandalone cfg now s none).nextLookupAt = none ∧
      (updateTempIdStepStandalone cfg now s none).statusDetails
        = some manualInterventionNotice) ∧
    (∀ (cfg : JobsConfig) (now : Nat) (s : Shipment),
      s.lookupAttempts + 1 < cfg.maxLookupAttempts →
      (updateTempIdStepStandalone cfg now s none).nextLookupAt
        = some (now + cfg.lookupIntervalMinutes * 60 * 1000)) ∧
    (∀ (cfg : JobsConfig) (now : Nat) (s : Shipment),
      (updateTempIdStepEmbedded cfg now s none).nextLookupAt
        = some (now + cfg.lookupIntervalMinutes * 60 * 1000) ∧
      (updateTempIdStepEmbedded cfg now s none).statusDetails = s.statusDetails) ∧
    (∀ (cfg : JobsConfig) (now : Nat) (s : Shipment),
      cfg.maxLookupAttempts ≤ s.lookupAttempts →
      tempIdSelection cfg now s = false) := by
  refine ⟨?_, ?_, ?_, ?_, ?_⟩
  · intro cfg now s
    constructor
    · by_cases hc : s.lookupAttempts + 1 < cfg.maxLookupAttempts <;>
      by_cases hm : cfg.maxLookupAttempts ≤ s.lookupAttempts + 1 <;>
        simp [updateTempIdStepStandalone, updateTempIdStepStandaloneFailed, hc, hm]
    · simp [updateTempIdStepEmbedded, updateTempIdStepEmbeddedFailed]
  · intro cfg now s h
    have hnot : ¬(s.lookupAttempts + 1 < cfg.maxLookupAttempts) := by omega
    constructor
    · simp [updateTempIdStepStandalone, updateTempIdStepStandaloneFailed, hnot, h]
    · simp [updateTempIdStepStandalone, updateTempIdStepStandaloneFailed, hnot, h]
  · intro cfg now s h
    have hnot : ¬(cfg.maxLookupAttempts ≤ s.lookupAttempts + 1) := by omega
    simp [updateTempIdStepStandalone, updateTempIdStepStandaloneFailed, h, hnot]
  · intro cfg now s
    constructor
    · simp [updateTempIdStepEmbedded, updateTempIdStepEmbeddedFailed]
    · simp [updateTempIdStepEmbedded, updateTempIdStepEmbeddedFailed]
  · intro cfg now s h
    have hnot : ¬(s.lookupAttempts < cfg.maxLookupAttempts) := by omega
    simp [tempIdSelection, hnot]

/-- Witness for the amended claim C1 at the source configuration, a
shipment one pass short of the cap and a capped shipment. -/
theorem updateTempIds_cap_amended_witness :
    (updateTempIdStepStandalone ⟨24, 60⟩ 5000
      (Shipment.mk "101" "1001" (some "PENDING-1001-5") true "new" none 23 none none
        (some 0)) none).lookupAttempts = 24 ∧
    (24 : Nat) ≤ 23 + 1 ∧
    (updateTempIdStepStandalone ⟨24, 60⟩ 5000
      (Shipment.mk "101" "1001" (some "PENDING-1001-5") true "new" none 23 none none
        (some 0)) none).nextLookupAt = none ∧
    (updateTempIdStepStandalone ⟨24, 60⟩ 5000
      (Shipment.mk "101" "1001" (some "PENDING-1001-5") true "new" none 23 none none
        (some 0)) none).statusDetails = some manualInterventionNotice ∧
    (24 : Nat) ≤ 24 ∧
    tempIdSelection ⟨24, 60⟩ 5000
      (Shipment.mk "101" "1001" (some "PENDING-1001-5") true "new" none 24 none none
        (some 0)) = false :=
  ⟨(updateTempIds_cap_amended.1 ⟨24, 60⟩ 5000
      (Shipment.mk "101" "1001" (some "PENDING-1001-5") true "new" none 23 none none
        (some 0))).1,
   by decide,
   (updateTempIds_cap_amended.2.1 ⟨24, 60⟩ 5000
      (Shipment.mk "101" "1001" (some "PENDING-1001-5") true "new" none 23 none none
        (some 0)) (by decide)).1,
   (updateTempIds_cap_amended.2.1 ⟨24, 60⟩ 5000
      (Shipment.mk "101" "1001" (some "PENDING-1001-5") true "new" none 23 none none
        (some 0)) (by decide)).2,
   by decide,
   updateTempIds_cap_amended.2.2.2.2 ⟨24, 60⟩ 5000
      (Shipment.mk "101" "1001" (some "PENDING-1001-5") true "new" none 24 none none
        (some 0)) (by decide)⟩

/-- Claim C2 counterexample: with a ledger row already carrying shipment
id SHP12345 and a tenant configured auto with trigger created, the
order-created webhook path still invokes Send (handleOrderCreated never
consults the ledger), Send performs the partner create call, and the
existing row is overwritten, refuting the claim that every trigger path
into Send is guarded by the existing-row shipment id check. -/
theorem send_idempotency_counterexample :
    hasShipmentId (some (Shipment.mk "101" "1001" (some "SHP12345") false "new" none 0
      none none (some 0))) = true ∧
    orderCreatedInvokesSend (some (StoreSettings.mk "auto" "created" true true 13))
      (some (Shipment.mk "101" "1001" (some "SHP12345") false "new" none 0
        none none (some 0))) = true ∧
    (sendOrderToDelifast 7000 "101" "1001"
      (some (Shipment.mk "101" "1001" (some "SHP12345") false "new" none 0
        none none (some 0)))
      (.ok ()) (.ok ⟨some "SHP99999", false⟩)).partnerCalled = true ∧
    (sendOrderToDelifast 7000 "101" "1001"
      (some (Shipment.mk "101" "1001" (some "SHP12345") false "new" none 0
        none none (some 0)))
      (.ok ()) (.ok ⟨some "SHP99999", false⟩)).ledger
      ≠ some (Shipment.mk "101" "1001" (some "SHP12345") false "new" none 0
        none none (some 0)) :=
  ⟨rfl, rfl, rfl, by decide⟩

/-- Claim C2 amended: the order-paid webhook path and the manual
single-order endpoint are guarded by the existing-row shipment id check
and skip Send when the id is set, so two consecutive paid or manual
Sends make exactly one partner call; the order-created webhook path is
not guarded (its decision never depends on the ledger row) and Send
itself performs the partner create call unconditionally once invoked
with a prepared payload. -/
theorem send_idempotency_amended :
    (∀ (st : Option StoreSettings) (ex : Option Shipment),
      hasShipmentId ex = true → orderPaidInvokesSend st ex = false) ∧
    (∀ ex : Option Shipment,
      hasShipmentId ex = true → manualSendInvokesSend ex = false) ∧
    (∀ (st : Option StoreSettings) (ex ex' : Option Shipment),
      orderCreatedInvokesSend st ex = orderCreatedInvokesSend st ex') ∧
    (∀ (now : Nat) (oid onum : String) (ex : Option Shipment)
       (cr : Except String CreateResult),
      (sendOrderToDelifast now oid onum ex (.ok ()) cr).partnerCalled = true) := by
  refine ⟨?_, ?_, ?_, ?_⟩
  · intro st ex h
    simp [orderPaidInvokesSend, h]
  · intro ex h
    simp [manualSendInvokesSend, h]
  · intro st ex ex'
    rfl
  · intro now oid onum ex cr
    cases cr with
    | error e => rfl
    | ok r => rfl

/-- Witness for the amended claim C2 at a row that already carries a
shipment id. -/
theorem send_idempotency_amended_witness :
    hasShipmentId (some (Shipment.mk "101" "1001" (some "SHP12345") false "new" none 0
      none none (some 0))) = true ∧
    orderPaidInvokesSend (some (StoreSettings.mk "auto" "paid" true true 13))
      (some (Shipment.mk "101" "1001" (some "SHP12345") false "new" none 0
        none none (some 0))) = false ∧
    manualSendInvokesSend
      (some (Shipment.mk "101" "1001" (some "SHP12345") false "new" none 0
        none none (some 0))) = false ∧
    (sendOrderToDelifast 7000 "101" "1001" none (.ok ())
      (.ok ⟨some "SHP99999", false⟩)).partnerCalled = true :=
  ⟨by decide,
   send_idempotency_amended.1 (some (StoreSettings.mk "auto" "paid" true true 13))
     (some (Shipment.mk "101" "1001" (some "SHP12345") false "new" none 0
       none none (some 0))) (by decide),
   send_idempotency_amended.2.1
     (some (Shipment.mk "101" "1001" (some "SHP12345") false "new" none 0
       none none (some 0))) (by decide),
   send_idempotency_amended.2.2.2 7000 "101" "1001" none (.ok ⟨some "SHP99999", false⟩)⟩

/-- Claim C5: whenever payload preparation or the partner create call
fails during Send, the ledger row for the (tenant, order) is upserted
with status error and the exception message as detail, and the exception
is re-thrown to the caller. -/
theorem send_error_persistence_spec :
    (∀ (now : Nat) (oid onum : String) (ex : Option Shipment)
       (cr : Except String CreateResult) (e : String),
      (sendOrderToDelifast now oid onum ex (.error e) cr).result = .error e ∧
      ∃ row, (sendOrderToDelifast now oid onum ex (.error e) cr).ledger = some row ∧
        row.status = "error" ∧ row.statusDetails = some e) ∧
    (∀ (now : Nat) (oid onum : String) (ex : Option Shipment) (e : String),
      (sendOrderToDelifast now oid onum ex (.ok ()) (.error e)).result = .error e ∧
      ∃ row, (sendOrderToDelifast now oid onum ex (.ok ()) (.error e)).ledger = some row ∧
        row.status = "error" ∧ row.statusDetails = some e) := by
  constructor
  · intro now oid onum ex cr e
    refine ⟨rfl, upsertErrorRow oid onum ex e, rfl, ?_, ?_⟩ <;> cases ex <;> rfl
  · intro now oid onum ex e
    refine ⟨rfl, upsertErrorRow oid onum ex e, rfl, ?_, ?_⟩ <;> cases ex <;> rfl

/-- Claim C6 counterexample: in the fetch-based makeRequest
(tokenManager.server.js), when the retried request also returns 401 the
parsed retry body is returned to the caller as a successful result
instead of propagating an auth failure, refuting the claim for this
cited variant. -/
theorem makeRequest_401_counterexample :
    makeRequestFetch (.resp 401 (.jobj [])) (.ok "token2")
        (.resp 401 (.jobj [("message", .jstr "Unauthorized")]))
      = .ok (.jobj [("message", .jstr "Unauthorized")]) := rfl

/-- Claim C6 amended: both request wrappers react to a first 401 by
clearing the token, logging in afresh and replaying the request exactly
once; in the axios client the retry outcome is returned on success and
propagated as an error otherwise (a second 401 propagates), while in the
fetch variant the retry body is returned regardless of the retry status,
so a second 401 comes back as a result; in both, a login failure during
the retry propagates, and a non-401 failure propagates without any
retry. -/
theorem makeRequest_401_amended :
    (∀ (d d2 : JsonVal) (tok : String) (s2 : Nat),
      makeRequestAxios (.httpError 401 d) (.ok tok) (.httpError s2 d2)
        = .error (.http s2 d2)) ∧
    (∀ (d d2 : JsonVal) (tok : String),
      makeRequestAxios (.httpError 401 d) (.ok tok) (.ok d2) = .ok d2) ∧
    (∀ (d : JsonVal) (e : String) (r2 : HttpOutcome),
      makeRequestAxios (.httpError 401 d) (.error e) r2 = .error (.loginFailed e)) ∧
    (∀ (st : Nat) (d : JsonVal) (lr : Except String String) (r2 : HttpOutcome),
      st ≠ 401 → makeRequestAxios (.httpError st d) lr r2 = .error (.http st d)) ∧
    (∀ (d d2 : JsonVal) (tok : String) (st2 : Nat),
      makeRequestFetch (.resp 401 d) (.ok tok) (.resp st2 d2) = .ok d2) ∧
    (∀ (d : JsonVal) (e : String) (r2 : FetchOutcome),
      makeRequestFetch (.resp 401 d) (.error e) r2 = .error (.loginFailed e)) ∧
    (∀ (st : Nat) (d : JsonVal) (lr : Except String String) (r2 : FetchOutcome),
      ¬(200 ≤ st ∧ st < 300) → st ≠ 401 →
      makeRequestFetch (.resp st d) lr r2 = .error (.http st d)) := by
  refine ⟨?_, ?_, ?_, ?_, ?_, ?_, ?_⟩
  · intro d d2 tok s2; rfl
  · intro d d2 tok; rfl
  · intro d e r2; rfl
  · intro st d lr r2 h
    simp [makeRequestAxios, h]
  · intro d d2 tok st2; rfl
  · intro d e r2; rfl
  · intro st d lr r2 h1 h2
    have hc : (200 ≤ st && st < 300) = false := by
      cases hc : (200 ≤ st && st < 300)
      · rfl
      · exact absurd (by simpa using hc) h1
    simp [makeRequestFetch, hc, h2]

/-- Witness for the amended claim C6: a second 401 propagates in the
axios client, the fetch variant returns the retry body, and a 500
propagates in both without retry. -/
theorem makeRequest_401_amended_witness :
    makeRequestAxios (.httpError 401 .jnull) (.ok "tok") (.httpError 401 .jnull)
      = .error (.http 401 .jnull) ∧
    makeRequestFetch (.resp 401 .jnull) (.ok "tok") (.resp 401 .jnull)
      = .ok .jnull ∧
    (500 : Nat) ≠ 401 ∧
    makeRequestAxios (.httpError 500 .jnull) (.ok "tok") (.ok .jnull)
      = .error (.http 500 .jnull) ∧
    ¬(200 ≤ (500 : Nat) ∧ (500 : Nat) < 300) ∧
    makeRequestFetch (.resp 500 .jnull) (.ok "tok") (.resp 200 .jnull)
      = .error (.http 500 .jnull) :=
  ⟨makeRequest_401_amended.1 .jnull .jnull "tok" 401,
   makeRequest_401_amended.2.2.2.2.1 .jnull .jnull "tok" 401,
   by decide,
   makeRequest_401_amended.2.2.2.1 500 .jnull (.ok "tok") (.ok .jnull) (by decide),
   by decide,
   makeRequest_401_amended.2.2.2.2.2.2 500 .jnull (.ok "tok") (.resp 200 .jnull)
     (by decide) (by decide)⟩

/-- Claim C10: lookupByOrderNumber never lets an exception escape: every
failing request path yields none, and a non-null id is returned only
when the extractor found a truthy id in the primary response or, after
the primary yielded nothing, in the alternate response. -/
theorem lookupByOrderNumber_spec :
    (∀ (e : ReqError) (alt : Except ReqError JsonVal),
      lookupByOrderNumber (.error e) alt = none) ∧
    (∀ (r : JsonVal) (e : ReqError),
      truthyId (extractShipmentId r) = none →
      lookupByOrderNumber (.ok r) (.error e) = none) ∧
    (∀ (pr ar : Except ReqError JsonVal) (id : String),
      lookupByOrderNumber pr ar = some id →
      ∃ r, pr = .ok r ∧
        (truthyId (extractShipmentId r) = some id ∨
         (truthyId (extractShipmentId r) = none ∧
          ∃ a, ar = .ok a ∧ truthyId (extractShipmentId a) = some id))) := by
  refine ⟨?_, ?_, ?_⟩
  · intro e alt; rfl
  · intro r e h
    simp [lookupByOrderNumber, h]
  · intro pr ar id h
    cases pr with
    | error e => exact absurd h (by simp [lookupByOrderNumber])
    | ok r =>
      simp only [lookupByOrderNumber] at h
      refine ⟨r, rfl, ?_⟩
      cases hx : truthyId (extractShipmentId r) with
      | some id' =>
        rw [hx] at h
        exact Or.inl h
      | none =>
        rw [hx] at h
        cases ar with
        | error e => exact Option.noConfusion h
        | ok a => exact Or.inr ⟨rfl, a, rfl, h⟩

/-- Witness for claim C10: a failing primary call yields none, a primary
response with no id and a failing alternate call yields none, and a
primary response carrying ShipmentNo SH991122 yields that id. -/
theorem lookupByOrderNumber_spec_witness :
    lookupByOrderNumber (.error (.net "timeout")) (.ok (.jobj [])) = none ∧
    truthyId (extractShipmentId (.jobj [("success", .jbool true)])) = none ∧
    lookupByOrderNumber (.ok (.jobj [("success", .jbool true)])) (.error (.net "timeout"))
      = none ∧
    lookupByOrderNumber (.ok (.jobj [("ShipmentNo", .jstr "SH991122")]))
      (.error (.net "timeout")) = some "SH991122" ∧
    ∃ r, (Except.ok (ε := ReqError) (.jobj [("ShipmentNo", .jstr "SH991122")])) = .ok r ∧
      (truthyId (extractShipmentId r) = some "SH991122" ∨
       (truthyId (extractShipmentId r) = none ∧
        ∃ a, (Except.error (α := JsonVal) (ReqError.net "timeout")) = .ok a ∧
          truthyId (extractShipmentId a) = some "SH991122")) :=
  ⟨lookupByOrderNumber_spec.1 (.net "timeout") (.ok (.jobj [])),
   by decide,
   lookupByOrderNumber_spec.2.1 (.jobj [("success", .jbool true)]) (.net "timeout")
     (by decide),
   by decide,
   lookupByOrderNumber_spec.2.2 (.ok (.jobj [("ShipmentNo", .jstr "SH991122")]))
     (.error (.net "timeout")) "SH991122" (by decide)⟩

end Delifast
